import Mathlib

/-!
# osp-magnum: sessions, identifier lists and the task graph

A shallow embedding of `src/osp/tasks/top_session.h` (the `Session` bookkeeping
struct, `SessionGroup`, the data-id declaration macros and the declaration of
`top_close_session`) and of `src/test_application/activescenes/identifiers.h`
(the identifier list macros and target structs), followed by the properties
established about them.

Conventions of the embedding:

* the strong integer ids (`TopDataId`, `TargetId`, `TaskId`, `TagId`) are natural numbers;
* `std::vector<T>` is `List T`;
* a member function that mutates its object returns the new object next to its result;
* an assertion that fails is the result `none`.
-/

namespace osp

/-! ## Identifiers -/

abbrev TopDataId := Nat
abbrev TargetId := Nat
abbrev TaskId := Nat
abbrev TagId := Nat

/-- The value `lgrn::id_null<ID_T>()`: the largest value of the 32-bit integer
underlying an id type.  Its declaration is in the longeron library, outside the
sources at hand; no property below depends on which number it is. -/
def id_null : Nat := 4294967295

/-! ## The TopData registry (`top_utils.h`) -/

/-- One `entt::any` slot of the TopData array: free, reserved but still empty,
or holding a value (the value is opaque to the scheduler). -/
inductive TopSlot where
  | free
  | reserved
  | value (v : Nat)
  deriving DecidableEq, Repr

abbrev TopData := List TopSlot

/-- Modelled from the spec: `top_find_empty` of `top_utils.h`, which is not among the
sources.  The index of the first free slot at or after `current`, or the size of
the store when there is none. -/
def top_find_empty : TopData → Nat → Nat
  | [], _ => 0
  | slot :: rest, 0 => if slot = TopSlot.free then 0 else top_find_empty rest 0 + 1
  | _ :: rest, current + 1 => top_find_empty rest current + 1

/-- Modelled from the spec: `top_reserve(topData, current, destFirst, destLast)` of
`top_utils.h`, which is not among the sources ("`reserve(n)` allocates `n` fresh
DataIds from the free pool ... and returns them; each ID initially refers to an
empty slot").  The id of the next free slot, searching from `current` on, is
written over each element of the destination range `dest` in turn, and the slot
is marked reserved.  The store is the `ArrayView<entt::any>` that both callers
(top_session.h, lines 45 and 81) hand over: a view of fixed size, which cannot
grow.  When no free slot remains, the rest of the destination range is left
as it was.  The result is the store, the position reached and the destination
range as the call leaves it. -/
def top_reserve : TopData → Nat → List TopDataId → TopData × Nat × List TopDataId
  | topData, current, [] => (topData, current, [])
  | topData, current, d :: dest =>
    let found := top_find_empty topData current
    if found < topData.length then
      let r := top_reserve (topData.set found TopSlot.reserved) (found + 1) dest
      (r.1, r.2.1, found :: r.2.2)
    else
      (topData, found, d :: dest)

/-- The free slots of the store at or after `current`, in increasing order. -/
def free_slots_from : TopData → Nat → List TopDataId
  | [], _ => []
  | slot :: rest, 0 =>
    (if slot = TopSlot.free then [0] else []) ++ (free_slots_from rest 0).map (fun i => i + 1)
  | _ :: rest, current + 1 => (free_slots_from rest current).map (fun i => i + 1)

/-! ## Identifier pools (`lgrn::IdRegistryStl`) -/

/-- An id registry: bit `i` says whether id `i` exists. -/
structure IdRegistry where
  m_exists : List Bool
  deriving DecidableEq, Repr

/-- The first id that does not exist, or the size of the registry. -/
def IdRegistry.first_free : List Bool → Nat
  | [] => 0
  | b :: rest => if b = false then 0 else IdRegistry.first_free rest + 1

/-- Modelled from the spec: `IdRegistryStl::create(first, last)` of the longeron
library, which is not among the sources ("Identifier pools - monotonically-issued,
recyclable opaque IDs").  One newly created id is written over each element of
the destination range `dest`; the registry grows when it has no free id. -/
def IdRegistry.create : IdRegistry → List Nat → IdRegistry × List Nat
  | reg, [] => (reg, [])
  | reg, _ :: dest =>
    let found := IdRegistry.first_free reg.m_exists
    let reg1 : IdRegistry :=
      if found < reg.m_exists.length then ⟨reg.m_exists.set found true⟩
      else ⟨reg.m_exists ++ [true]⟩
    let r := IdRegistry.create reg1 dest
    (r.1, found :: r.2)

/-- Modelled from the spec: `IdRegistryStl::remove(id)` of the longeron library,
which is not among the sources: the id is returned to the pool. -/
def IdRegistry.remove (reg : IdRegistry) (id : Nat) : IdRegistry :=
  ⟨reg.m_exists.set id false⟩

/-- Whether `id` currently exists in the registry. -/
def IdRegistry.has (reg : IdRegistry) (id : Nat) : Bool :=
  reg.m_exists.getD id false

/-! ## `std::vector` operations used by `Session` -/

/-- The call `std::vector::resize(count)`: the first `count` elements are kept and
value-initialised elements are appended up to `count`. -/
def vector_resize (v : List Nat) (count : Nat) : List Nat :=
  v.take count ++ List.replicate (count - v.length) 0

/-! ## Target structs -/

/-- What `Session` uses of a target struct type `TGT_STRUCT_T`: the `std::type_info`
hash code and name, and `count = sizeof(TGT_STRUCT_T) / sizeof(TargetId)`, the
number of `TargetId` fields.  A value of the struct is the list of its fields. -/
structure TgtStructInfo where
  hash_code : Nat
  name : String
  count : Nat
  deriving DecidableEq, Repr

/-! ## `Session` (top_session.h, lines 75-132) -/

structure Session where
  m_data : List TopDataId
  m_targets : List TargetId
  m_tasks : List TaskId
  m_cleanupTgt : TargetId
  m_targetStructHash : Nat
  m_targetStructName : String
  deriving DecidableEq, Repr

/-- A default-constructed `Session`: the member initialisers of lines 124-131. -/
def Session.new : Session :=
  { m_data := [], m_targets := [], m_tasks := [], m_cleanupTgt := id_null,
    m_targetStructHash := 0, m_targetStructName := "" }

/-- The function `Session::acquire_data<N>(topData)`, lines 77-84: `out` is an array of
`N` ids declared without an initialiser, so entry `i` starts with an
indeterminate value, `uninit i`; `top_reserve` writes over the array searching
from slot 0, and `m_data.assign` replaces the contents of `m_data` by `out`.
The result is the returned array, the session and the TopData store. -/
def Session.acquire_data (N : Nat) (uninit : Nat → TopDataId) (s : Session)
    (topData : TopData) : List TopDataId × Session × TopData :=
  let r := top_reserve topData 0 ((List.range N).map uninit)
  let out := r.2.2
  (out, { s with m_data := out }, r.1)

/-- The macro `OSP_DECLARE_CREATE_DATA_IDS(session, topData, count, names...)`, lines 43-53:
`m_data.resize(count)`, then `top_reserve` over the whole of `m_data`, then
`osp::unpack<count>(m_data)` binds the names to the first `count` ids. -/
def declare_create_data_ids (count : Nat) (s : Session) (topData : TopData) :
    List TopDataId × Session × TopData :=
  let resized := vector_resize s.m_data count
  let r := top_reserve topData 0 resized
  (r.2.2.take count, { s with m_data := r.2.2 }, r.1)

/-- The function `Session::create_targets<TGT_STRUCT_T>(rBuilder)`, lines 86-101: the type
hash and name are recorded, `m_targets` is resized to `count`, the target id
registry of the builder creates an id for every element of `m_targets`, and
the struct returned is read from the start of `m_targets`. -/
def Session.create_targets (T : TgtStructInfo) (s : Session) (m_targetIds : IdRegistry) :
    List TargetId × Session × IdRegistry :=
  let resized := vector_resize s.m_targets T.count
  let r := IdRegistry.create m_targetIds resized
  (r.2.take T.count,
   { s with m_targetStructHash := T.hash_code, m_targetStructName := T.name,
            m_targets := r.2 },
   r.1)

/-- The function `Session::get_targets<TGT_STRUCT_T>()`, lines 103-117: `none` when the
assertion `m_targetStructHash == info.hash_code() && count == m_targets.size()`
fails, otherwise the struct read from the start of `m_targets`. -/
def Session.get_targets (T : TgtStructInfo) (s : Session) : Option (List TargetId) :=
  if s.m_targetStructHash = T.hash_code ∧ T.count = s.m_targets.length then
    some (s.m_targets.take T.count)
  else
    none

/-- The function `Session::task()`, lines 119-122: `m_tasks.emplace_back(id_null)`; the
reference returned is given as the index of the element it designates. -/
def Session.task (s : Session) : Nat × Session :=
  (s.m_tasks.length, { s with m_tasks := s.m_tasks ++ [id_null] })

/-! ## Target structs of identifiers.h -/

/-- The fields of `struct TgtScene` (identifiers.h, lines 67-73), all of type `osp::TargetId`. -/
def TgtScene_fields : List String := ["cleanup", "time", "sync", "resyncAll"]

/-- The fields of `struct TgtWindowApp` (identifiers.h, lines 228-232). -/
def TgtWindowApp_fields : List String := ["input", "render"]

/-- The fields of `struct TgtMagnum` (identifiers.h, lines 239-242). -/
def TgtMagnum_fields : List String := ["cleanup"]

/-- The type information of `TgtScene`; the hash code and name that `typeid` gives
are implementation-defined and are taken as parameters. -/
def TgtScene (hash_code : Nat) (name : String) : TgtStructInfo :=
  { hash_code := hash_code, name := name, count := TgtScene_fields.length }

/-- The type information of `TgtWindowApp`. -/
def TgtWindowApp (hash_code : Nat) (name : String) : TgtStructInfo :=
  { hash_code := hash_code, name := name, count := TgtWindowApp_fields.length }

/-- The type information of `TgtMagnum`. -/
def TgtMagnum (hash_code : Nat) (name : String) : TgtStructInfo :=
  { hash_code := hash_code, name := name, count := TgtMagnum_fields.length }

/-! ## Sequences of calls on one session -/

/-- What a sequence of `Session` member calls works on: the session, the TopData
store handed to `acquire_data` and the target id registry of the builder
handed to `create_targets`. -/
structure SessionWorld where
  session : Session
  topData : TopData
  m_targetIds : IdRegistry
  deriving DecidableEq, Repr

/-- One call of a member function of `Session`; a call of `acquire_data<N>` comes with
the indeterminate values its array starts with. -/
inductive SessionCall where
  | acquire_data (N : Nat) (uninit : Nat → TopDataId)
  | create_targets (T : TgtStructInfo)
  | get_targets (T : TgtStructInfo)
  | task

/-- The effect of one call; `none` when the assertion of `get_targets` fails and
the program stops. -/
def SessionCall.apply (c : SessionCall) (w : SessionWorld) : Option SessionWorld :=
  match c with
  | SessionCall.acquire_data N uninit =>
    let r := Session.acquire_data N uninit w.session w.topData
    some { w with session := r.2.1, topData := r.2.2 }
  | SessionCall.create_targets T =>
    let r := Session.create_targets T w.session w.m_targetIds
    some { w with session := r.2.1, m_targetIds := r.2.2 }
  | SessionCall.get_targets T =>
    match Session.get_targets T w.session with
    | some _ => some w
    | none => none
  | SessionCall.task => some { w with session := (Session.task w.session).2 }

/-- The effect of a sequence of calls, first call first. -/
def run_calls : List SessionCall → SessionWorld → Option SessionWorld
  | [], w => some w
  | c :: cs, w =>
    match c.apply w with
    | some w1 => run_calls cs w1
    | none => none

/-- A session whose data list already holds the id 7: the example used against
the reading of `acquire_data` as an append. -/
def session_holding_7 : Session := { Session.new with m_data := [7] }

/-- Indeterminate array contents that happen to be 9 in every entry. -/
def uninit_9 : Nat → TopDataId := fun _ => 9

/-- A TopData store of three slots, the middle one holding a value. -/
def store_with_room : TopData := [TopSlot.free, TopSlot.value 5, TopSlot.free]

/-- A TopData store of two slots with no free slot. -/
def store_exhausted : TopData := [TopSlot.value 5, TopSlot.reserved]

end osp

namespace osp

/-! ## `SessionGroup` and the task graph -/

/-- Modelled from the spec: `TaskEdges` of tasks.h, which is not among the sources ("the
declared (pre-compiled) bipartite relation {task -> required tags} and
{task -> affected tags}"): the pairs of a task and a tag it requires, and the
pairs of a task and a tag it affects, in declaration order. -/
structure TaskEdges where
  m_required : List (TaskId × TagId)
  m_affected : List (TaskId × TagId)
  deriving DecidableEq, Repr

/-- The struct `SessionGroup`, top_session.h lines 134-138. -/
structure SessionGroup where
  m_sessions : List Session
  m_edges : TaskEdges
  deriving DecidableEq, Repr

/-- The edge relation of the task graph: `a -> b` whenever a tag affected by task `a`
is required by task `b`. -/
def TaskEdges.has_edge (e : TaskEdges) (a b : TaskId) : Bool :=
  e.m_affected.any (fun p => p.1 == a && e.m_required.any (fun q => q.1 == b && q.2 == p.2))

/-- The relation is acyclic: no task reaches itself along one or more edges. -/
def TaskEdges.Acyclic (e : TaskEdges) : Prop :=
  ∀ a : TaskId, ¬ Relation.TransGen (fun x y => e.has_edge x y = true) a a

/-- The elements of a list in the order of their first occurrence. -/
def first_occurrences (l : List Nat) : List Nat :=
  (l.reverse.dedup).reverse

/-- The tasks of a session group in declaration order: the tasks its sessions hold,
then the tasks its edges name, each once. -/
def SessionGroup.tasks (g : SessionGroup) : List TaskId :=
  first_occurrences
    ((g.m_sessions.map Session.m_tasks).flatten
      ++ g.m_edges.m_affected.map Prod.fst ++ g.m_edges.m_required.map Prod.fst)

/-- Modelled from the spec: `ExecGraph` of execute.h, which is not among the sources
("for each task, its predecessor set ... and its successor set; a global linear
order consistent with those constraints"). -/
structure ExecGraph where
  m_order : List TaskId
  m_predecessors : List (TaskId × List TaskId)
  m_successors : List (TaskId × List TaskId)
  deriving DecidableEq, Repr

/-- The outcome of a compilation: the result, or the cycle error of the spec with
the tasks that could not be ordered. -/
inductive CompileResult (α : Type) where
  | ok (result : α)
  | cycle_error (tasks : List TaskId)
  deriving DecidableEq, Repr

/-- A task is ready when no task that remains to be ordered has an edge to it. -/
def TaskEdges.is_ready (e : TaskEdges) (remaining : List TaskId) (t : TaskId) : Bool :=
  remaining.all (fun a => !e.has_edge a t)

/-- Modelled from the spec: the traversal of the graph compiler ("compute a topological
order via a standard depth-first or Kahn traversal ... ties broken by
declaration order"), Kahn's traversal: the first ready task in declaration
order is taken next, until none remains; when tasks remain and none is ready
the result is the cycle error, carrying the tasks that could not be ordered.
Every round orders one task, so `fuel` rounds suffice for `fuel` tasks. -/
def topological_order (e : TaskEdges) : Nat → List TaskId → CompileResult (List TaskId)
  | _, [] => CompileResult.ok []
  | 0, t :: rest => CompileResult.cycle_error (t :: rest)
  | fuel + 1, t :: rest =>
    match (t :: rest).find? (e.is_ready (t :: rest)) with
    | none => CompileResult.cycle_error (t :: rest)
    | some next =>
      match topological_order e fuel ((t :: rest).erase next) with
      | CompileResult.ok order => CompileResult.ok (next :: order)
      | CompileResult.cycle_error cycle => CompileResult.cycle_error cycle

/-- Modelled from the spec: the compilation of a session group into an `ExecGraph`
(the compiler is in execute.cpp, which is not among the sources): the linear
order of the tasks of the group, and for each task the tasks with an edge to
it and the tasks it has an edge to; or the cycle error. -/
def compile (g : SessionGroup) : CompileResult ExecGraph :=
  match topological_order g.m_edges g.tasks.length g.tasks with
  | CompileResult.ok order =>
    CompileResult.ok
      { m_order := order,
        m_predecessors := order.map (fun t => (t, g.tasks.filter (fun a => g.m_edges.has_edge a t))),
        m_successors := order.map (fun t => (t, g.tasks.filter (fun b => g.m_edges.has_edge t b))) }
  | CompileResult.cycle_error cycle => CompileResult.cycle_error cycle

/-! ## `top_close_session` (top_session.h, lines 140-143) -/

/-- Modelled from the spec: `Tasks` of tasks.h, which is not among the sources: the id
pools for tasks and targets (`create_targets` names the member `m_targetIds`). -/
structure Tasks where
  m_taskIds : IdRegistry
  m_targetIds : IdRegistry
  deriving DecidableEq, Repr

/-- What the caller of `top_close_session` holds after the call: the objects passed
by reference, `rTasks` and `topData`, as the call left them, and `graph`, the
object passed by reference to const. -/
structure ClosedWorld where
  rTasks : Tasks
  graph : ExecGraph
  topData : TopData
  deriving DecidableEq, Repr

/-- Modelled from the spec: the release of data slots ("clears each slot's contents
... and returns the ID to the free pool"). -/
def top_release (topData : TopData) (ids : List TopDataId) : TopData :=
  ids.foldl (fun td id => td.set id TopSlot.free) topData

/-- Modelled from the spec: `top_close_session(rTasks, graph, rTaskData, topData, rExec,
sessions)`, declared in top_session.h line 143 and defined in top_session.cpp,
which is not among the sources ("for each session in the given set, if it
declares a cleanup TargetId, run the tasks reachable from that target first,
then release every DataId, TaskId, and TargetId the session owns").  The task
bodies (`rTaskData`) and the run of the cleanup tasks on the execution context
(`rExec`) are opaque to the scheduler: `run_cleanup` stands for their effect on
the TopData store, given the cleanup targets that are not null.  The declaration
takes `graph` as `ExecGraph const&` and takes no `TaskEdges`: the graph is read,
not written, and comes out as it went in. -/
def top_close_session (run_cleanup : List TargetId → TopData → TopData)
    (rTasks : Tasks) (graph : ExecGraph) (topData : TopData) (sessions : List Session) :
    ClosedWorld :=
  let cleanup_targets := (sessions.map Session.m_cleanupTgt).filter (fun t => t != id_null)
  let topData1 := run_cleanup cleanup_targets topData
  { rTasks :=
      { m_taskIds :=
          ((sessions.map Session.m_tasks).flatten).foldl IdRegistry.remove rTasks.m_taskIds,
        m_targetIds :=
          ((sessions.map Session.m_targets).flatten).foldl IdRegistry.remove rTasks.m_targetIds },
    graph := graph,
    topData := top_release topData1 (sessions.map Session.m_data).flatten }

/-- The session group of the scenario of the spec: one session with the tasks
create (0), update (1) and read (2) and the tags tgXNew (0), tgXMod (1) and
tgXReq (2); create affects tgXNew, update requires tgXNew and affects tgXMod,
read requires tgXMod. -/
def scenario_group : SessionGroup :=
  { m_sessions := [{ Session.new with m_tasks := [0, 1, 2] }],
    m_edges := { m_required := [(1, 0), (2, 1)], m_affected := [(0, 0), (1, 1)] } }

/-- The `ExecGraph` of the scenario of the spec. -/
def scenario_graph : ExecGraph :=
  { m_order := [0, 1, 2],
    m_predecessors := [(0, []), (1, [0]), (2, [1])],
    m_successors := [(0, [1]), (1, [2]), (2, [])] }

/-- The `Tasks` of the scenario of the spec: the task ids 0, 1 and 2 exist. -/
def scenario_tasks : Tasks :=
  { m_taskIds := ⟨[true, true, true]⟩, m_targetIds := ⟨[]⟩ }

/-- A cleanup pass that leaves the TopData store as it is. -/
def no_cleanup : List TargetId → TopData → TopData := fun _ topData => topData

/-- A sequence of calls on one session that creates targets twice, with `TgtScene` and
then with `TgtMagnum`, both structs with a field named `cleanup`. -/
def cleanup_example_calls : List SessionCall :=
  [SessionCall.create_targets (TgtScene 11 "TgtScene"),
   SessionCall.get_targets (TgtScene 11 "TgtScene"),
   SessionCall.acquire_data 1 uninit_9,
   SessionCall.task,
   SessionCall.create_targets (TgtMagnum 12 "TgtMagnum"),
   SessionCall.get_targets (TgtMagnum 12 "TgtMagnum")]

/-- The session, TopData store and target id registry that the example sequence
leaves when it starts from a new session, the store `store_with_room` and an
empty registry. -/
def cleanup_example_world : SessionWorld :=
  { session :=
      { m_data := [0], m_targets := [4], m_tasks := [id_null], m_cleanupTgt := id_null,
        m_targetStructHash := 12, m_targetStructName := "TgtMagnum" },
    topData := [TopSlot.reserved, TopSlot.value 5, TopSlot.free],
    m_targetIds := ⟨[true, true, true, true, true]⟩ }

end osp

namespace testapp

/-! ## The identifier lists of identifiers.h -/

/-- One identifier list definition `#define NAME <# of identifiers>, a, b, c, ...`:
the name defined, the leading number and the identifier names that follow it. -/
structure IdentifierList where
  name : String
  count : Nat
  names : List String
  deriving DecidableEq, Repr

/-- The definition `#define TESTAPP_DATA_COMMON_SCENE` of identifiers.h, line 53. -/
def TESTAPP_DATA_COMMON_SCENE : IdentifierList :=
  { name := "TESTAPP_DATA_COMMON_SCENE", count := 9,
    names :=
      ["idDeltaTimeIn", "idActiveIds", "idBasic", "idDrawing", "idDrawingRes", "idDelEnts",
       "idDelTotal", "idDelDrawEnts", "idNMesh"] }

/-- The definition `#define OSP_TAGS_TESTAPP_COMMON_SCENE` of identifiers.h, line 55. -/
def OSP_TAGS_TESTAPP_COMMON_SCENE : IdentifierList :=
  { name := "OSP_TAGS_TESTAPP_COMMON_SCENE", count := 37,
    names :=
      ["tgCleanupEvt", "tgResyncEvt", "tgSyncEvt", "tgSceneEvt", "tgTimeEvt", "tgEntDel",
       "tgEntNew", "tgEntReq", "tgDelEntMod", "tgDelEntReq", "tgDelEntClr", "tgDelTotalMod",
       "tgDelTotalReq", "tgDelTotalClr", "tgTransformMod", "tgTransformDel",
       "tgTransformNew", "tgTransformReq", "tgHierMod", "tgHierModEnd", "tgHierDel",
       "tgHierNew", "tgHierReq", "tgDrawDel", "tgDrawMod", "tgDrawReq", "tgDelDrawEntMod",
       "tgDelDrawEntReq", "tgDelDrawEntClr", "tgMeshDel", "tgMeshMod", "tgMeshReq",
       "tgMeshClr", "tgTexDel", "tgTexMod", "tgTexReq", "tgTexClr"] }

/-- The definition `#define TESTAPP_DATA_MATERIAL` of identifiers.h, lines 75 and 82, defined twice with the same text. -/
def TESTAPP_DATA_MATERIAL : IdentifierList :=
  { name := "TESTAPP_DATA_MATERIAL", count := 2,
    names :=
      ["idMatEnts", "idMatDirty"] }

/-- The definition `#define OSP_TAGS_TESTAPP_MATERIAL` of identifiers.h, lines 77 and 84, defined twice with the same text. -/
def OSP_TAGS_TESTAPP_MATERIAL : IdentifierList :=
  { name := "OSP_TAGS_TESTAPP_MATERIAL", count := 4,
    names :=
      ["tgMatDel", "tgMatMod", "tgMatReq", "tgMatClr"] }

/-- The definition `#define TESTAPP_DATA_PHYSICS` of identifiers.h, line 89. -/
def TESTAPP_DATA_PHYSICS : IdentifierList :=
  { name := "TESTAPP_DATA_PHYSICS", count := 3,
    names :=
      ["idPhys", "idHierBody", "idPhysIn"] }

/-- The definition `#define OSP_TAGS_TESTAPP_PHYSICS` of identifiers.h, line 91. -/
def OSP_TAGS_TESTAPP_PHYSICS : IdentifierList :=
  { name := "OSP_TAGS_TESTAPP_PHYSICS", count := 6,
    names :=
      ["tgPhysPrv", "tgPhysDel", "tgPhysMod", "tgPhysReq", "tgPhysTransformMod",
       "tgPhysTransformReq"] }

/-- The definition `#define TESTAPP_DATA_SHAPE_SPAWN` of identifiers.h, line 97. -/
def TESTAPP_DATA_SHAPE_SPAWN : IdentifierList :=
  { name := "TESTAPP_DATA_SHAPE_SPAWN", count := 2,
    names :=
      ["idSpawner", "idSpawnerEnts"] }

/-- The definition `#define OSP_TAGS_TESTAPP_SHAPE_SPAWN` of identifiers.h, line 99. -/
def OSP_TAGS_TESTAPP_SHAPE_SPAWN : IdentifierList :=
  { name := "OSP_TAGS_TESTAPP_SHAPE_SPAWN", count := 5,
    names :=
      ["tgSpawnMod", "tgSpawnReq", "tgSpawnClr", "tgSpawnEntMod", "tgSpawnEntReq"] }

/-- The definition `#define TESTAPP_DATA_PREFABS` of identifiers.h, line 105. -/
def TESTAPP_DATA_PREFABS : IdentifierList :=
  { name := "TESTAPP_DATA_PREFABS", count := 1,
    names :=
      ["idPrefabInit"] }

/-- The definition `#define OSP_TAGS_TESTAPP_PREFABS` of identifiers.h, line 107. -/
def OSP_TAGS_TESTAPP_PREFABS : IdentifierList :=
  { name := "OSP_TAGS_TESTAPP_PREFABS", count := 7,
    names :=
      ["tgPrefabMod", "tgPrefabReq", "tgPrefabClr", "tgPrefabEntMod", "tgPrefabEntReq",
       "tgPfParentHierMod", "tgPfParentHierReq"] }

/-- The definition `#define TESTAPP_DATA_BOUNDS` of identifiers.h, line 114. -/
def TESTAPP_DATA_BOUNDS : IdentifierList :=
  { name := "TESTAPP_DATA_BOUNDS", count := 2,
    names :=
      ["idBounds", "idOutOfBounds"] }

/-- The definition `#define OSP_TAGS_TESTAPP_BOUNDS` of identifiers.h, line 116. -/
def OSP_TAGS_TESTAPP_BOUNDS : IdentifierList :=
  { name := "OSP_TAGS_TESTAPP_BOUNDS", count := 5,
    names :=
      ["tgBoundsSetDel", "tgBoundsSetMod", "tgBoundsSetReq", "tgOutOfBoundsPrv",
       "tgOutOfBoundsMod"] }

/-- The definition `#define TESTAPP_DATA_PARTS` of identifiers.h, line 122. -/
def TESTAPP_DATA_PARTS : IdentifierList :=
  { name := "TESTAPP_DATA_PARTS", count := 6,
    names :=
      ["idScnParts", "idPartInit", "idUpdMach", "idMachEvtTags", "idMachUpdEnqueue",
       "idtgNodeUpdEvt"] }

/-- The definition `#define OSP_TAGS_TESTAPP_PARTS` of identifiers.h, line 124. -/
def OSP_TAGS_TESTAPP_PARTS : IdentifierList :=
  { name := "OSP_TAGS_TESTAPP_PARTS", count := 17,
    names :=
      ["tgPartMod", "tgPartReq", "tgPartClr", "tgMapPartEntMod", "tgMapPartEntReq",
       "tgWeldMod", "tgWeldReq", "tgWeldClr", "tgLinkMod", "tgLinkReq", "tgLinkMhUpdMod",
       "tgLinkMhUpdReq", "tgNodeAnyUpdMod", "tgNodeAnyUpdReq", "tgMachUpdEnqMod",
       "tgMachUpdEnqReq", "tgNodeUpdEvt"] }

/-- The definition `#define TESTAPP_DATA_VEHICLE_SPAWN` of identifiers.h, line 135. -/
def TESTAPP_DATA_VEHICLE_SPAWN : IdentifierList :=
  { name := "TESTAPP_DATA_VEHICLE_SPAWN", count := 1,
    names :=
      ["idVehicleSpawn"] }

/-- The definition `#define OSP_TAGS_TESTAPP_VEHICLE_SPAWN` of identifiers.h, line 137. -/
def OSP_TAGS_TESTAPP_VEHICLE_SPAWN : IdentifierList :=
  { name := "OSP_TAGS_TESTAPP_VEHICLE_SPAWN", count := 11,
    names :=
      ["tgVsBasicInMod", "tgVsBasicInReq", "tgVsBasicInClr", "tgVsPartMod", "tgVsPartReq",
       "tgVsMapPartMachMod", "tgVsMapPartMachReq", "tgVsWeldMod", "tgVsWeldReq",
       "tgVsPartPfMod", "tgVsPartPfReq"] }

/-- The definition `#define TESTAPP_DATA_VEHICLE_SPAWN_VB` of identifiers.h, line 146. -/
def TESTAPP_DATA_VEHICLE_SPAWN_VB : IdentifierList :=
  { name := "TESTAPP_DATA_VEHICLE_SPAWN_VB", count := 1,
    names :=
      ["idVehicleSpawnVB"] }

/-- The definition `#define OSP_TAGS_TESTAPP_VEHICLE_SPAWN_VB` of identifiers.h, line 148. -/
def OSP_TAGS_TESTAPP_VEHICLE_SPAWN_VB : IdentifierList :=
  { name := "OSP_TAGS_TESTAPP_VEHICLE_SPAWN_VB", count := 10,
    names :=
      ["tgVbSpBasicInMod", "tgVbSpBasicInReq", "tgVbPartMod", "tgVbPartReq", "tgVbWeldMod",
       "tgVbWeldReq", "tgVbMachMod", "tgVbMachReq", "tgVbNodeMod", "tgVbNodeReq"] }

/-- The definition `#define TESTAPP_DATA_TEST_VEHICLES` of identifiers.h, line 156. -/
def TESTAPP_DATA_TEST_VEHICLES : IdentifierList :=
  { name := "TESTAPP_DATA_TEST_VEHICLES", count := 1,
    names :=
      ["idTVPartVehicle"] }

/-- The definition `#define TESTAPP_DATA_SIGNALS_FLOAT` of identifiers.h, line 161. -/
def TESTAPP_DATA_SIGNALS_FLOAT : IdentifierList :=
  { name := "TESTAPP_DATA_SIGNALS_FLOAT", count := 2,
    names :=
      ["idSigValFloat", "idSigUpdFloat"] }

/-- The definition `#define OSP_TAGS_TESTAPP_SIGNALS_FLOAT` of identifiers.h, line 163. -/
def OSP_TAGS_TESTAPP_SIGNALS_FLOAT : IdentifierList :=
  { name := "OSP_TAGS_TESTAPP_SIGNALS_FLOAT", count := 5,
    names :=
      ["tgSigFloatLinkMod", "tgSigFloatLinkReq", "tgSigFloatUpdMod", "tgSigFloatUpdReq",
       "tgSigFloatUpdEvt"] }

/-- The definition `#define TESTAPP_DATA_MACH_ROCKET` of identifiers.h, line 169. -/
def TESTAPP_DATA_MACH_ROCKET : IdentifierList :=
  { name := "TESTAPP_DATA_MACH_ROCKET", count := 1,
    names :=
      ["idDummy"] }

/-- The definition `#define OSP_TAGS_TESTAPP_MACH_ROCKET` of identifiers.h, line 171. -/
def OSP_TAGS_TESTAPP_MACH_ROCKET : IdentifierList :=
  { name := "OSP_TAGS_TESTAPP_MACH_ROCKET", count := 1,
    names :=
      ["tgMhRocketEvt"] }

/-- The definition `#define OSP_TAGS_TESTAPP_MACH_RCSDRIVER` of identifiers.h, line 174. -/
def OSP_TAGS_TESTAPP_MACH_RCSDRIVER : IdentifierList :=
  { name := "OSP_TAGS_TESTAPP_MACH_RCSDRIVER", count := 1,
    names :=
      ["tgMhRcsDriverEvt"] }

/-- The definition `#define TESTAPP_DATA_NEWTON` of identifiers.h, line 177. -/
def TESTAPP_DATA_NEWTON : IdentifierList :=
  { name := "TESTAPP_DATA_NEWTON", count := 1,
    names :=
      ["idNwt"] }

/-- The definition `#define OSP_TAGS_TESTAPP_NEWTON` of identifiers.h, line 179. -/
def OSP_TAGS_TESTAPP_NEWTON : IdentifierList :=
  { name := "OSP_TAGS_TESTAPP_NEWTON", count := 5,
    names :=
      ["tgNwtBodyPrv", "tgNwtBodyDel", "tgNwtBodyMod", "tgNwtBodyReq", "tgNwtBodyClr"] }

/-- The definition `#define TESTAPP_DATA_NEWTON_FORCES` of identifiers.h, line 183. -/
def TESTAPP_DATA_NEWTON_FORCES : IdentifierList :=
  { name := "TESTAPP_DATA_NEWTON_FORCES", count := 1,
    names :=
      ["idNwtFactors"] }

/-- The definition `#define TESTAPP_DATA_NEWTON_ACCEL` of identifiers.h, line 188. -/
def TESTAPP_DATA_NEWTON_ACCEL : IdentifierList :=
  { name := "TESTAPP_DATA_NEWTON_ACCEL", count := 1,
    names :=
      ["idAcceleration"] }

/-- The definition `#define OSP_TAGS_TESTAPP_VEHICLE_SPAWN_NWT` of identifiers.h, line 193. -/
def OSP_TAGS_TESTAPP_VEHICLE_SPAWN_NWT : IdentifierList :=
  { name := "OSP_TAGS_TESTAPP_VEHICLE_SPAWN_NWT", count := 4,
    names :=
      ["tgNwtVhWeldEntMod", "tgNwtVhWeldEntReq", "tgNwtVhHierMod", "tgNwtVhHierReq"] }

/-- The definition `#define TESTAPP_DATA_ROCKETS_NWT` of identifiers.h, line 199. -/
def TESTAPP_DATA_ROCKETS_NWT : IdentifierList :=
  { name := "TESTAPP_DATA_ROCKETS_NWT", count := 1,
    names :=
      ["idRocketsNwt"] }

/-- The definition `#define TESTAPP_DATA_UNI_CORE` of identifiers.h, line 207. -/
def TESTAPP_DATA_UNI_CORE : IdentifierList :=
  { name := "TESTAPP_DATA_UNI_CORE", count := 2,
    names :=
      ["idUniverse", "tgUniDeltaTimeIn"] }

/-- The definition `#define OSP_TAGS_TESTAPP_UNI_CORE` of identifiers.h, line 209. -/
def OSP_TAGS_TESTAPP_UNI_CORE : IdentifierList :=
  { name := "OSP_TAGS_TESTAPP_UNI_CORE", count := 4,
    names :=
      ["tgUniUpdEvt", "tgUniTimeEvt", "tgUniTransferMod", "tgUniTransferReq"] }

/-- The definition `#define TESTAPP_DATA_UNI_SCENEFRAME` of identifiers.h, line 213. -/
def TESTAPP_DATA_UNI_SCENEFRAME : IdentifierList :=
  { name := "TESTAPP_DATA_UNI_SCENEFRAME", count := 1,
    names :=
      ["idScnFrame"] }

/-- The definition `#define OSP_TAGS_TESTAPP_UNI_SCENEFRAME` of identifiers.h, line 215. -/
def OSP_TAGS_TESTAPP_UNI_SCENEFRAME : IdentifierList :=
  { name := "OSP_TAGS_TESTAPP_UNI_SCENEFRAME", count := 2,
    names :=
      ["tgScnFramePosMod", "tgScnFramePosReq"] }

/-- The definition `#define TESTAPP_DATA_UNI_PLANETS` of identifiers.h, line 218. -/
def TESTAPP_DATA_UNI_PLANETS : IdentifierList :=
  { name := "TESTAPP_DATA_UNI_PLANETS", count := 2,
    names :=
      ["idPlanetMainSpace", "idSatSurfaceSpaces"] }

/-- The definition `#define TESTAPP_DATA_WINDOW_APP` of identifiers.h, line 225. -/
def TESTAPP_DATA_WINDOW_APP : IdentifierList :=
  { name := "TESTAPP_DATA_WINDOW_APP", count := 1,
    names :=
      ["idUserInput"] }

/-- The definition `#define TESTAPP_DATA_MAGNUM` of identifiers.h, line 236. -/
def TESTAPP_DATA_MAGNUM : IdentifierList :=
  { name := "TESTAPP_DATA_MAGNUM", count := 2,
    names :=
      ["idActiveApp", "idRenderGl"] }

/-- The definition `#define TESTAPP_DATA_COMMON_RENDERER` of identifiers.h, line 245. -/
def TESTAPP_DATA_COMMON_RENDERER : IdentifierList :=
  { name := "TESTAPP_DATA_COMMON_RENDERER", count := 3,
    names :=
      ["idScnRender", "idGroupFwd", "idCamera"] }

/-- The definition `#define OSP_TAGS_TESTAPP_COMMON_RENDERER` of identifiers.h, line 247. -/
def OSP_TAGS_TESTAPP_COMMON_RENDERER : IdentifierList :=
  { name := "OSP_TAGS_TESTAPP_COMMON_RENDERER", count := 24,
    names :=
      ["tgDrawGlDel", "tgDrawGlMod", "tgDrawGlReq", "tgMeshGlMod", "tgMeshGlReq",
       "tgTexGlMod", "tgTexGlReq", "tgEntTexMod", "tgEntTexReq", "tgEntMeshMod",
       "tgEntMeshReq", "tgCameraMod", "tgCameraReq", "tgGroupFwdDel", "tgGroupFwdMod",
       "tgGroupFwdReq", "tgBindFboMod", "tgBindFboReq", "tgFwdRenderMod", "tgFwdRenderReq",
       "tgDrawTransformDel", "tgDrawTransformNew", "tgDrawTransformMod",
       "tgDrawTransformReq"] }

/-- The definition `#define TESTAPP_DATA_CAMERA_CTRL` of identifiers.h, line 261. -/
def TESTAPP_DATA_CAMERA_CTRL : IdentifierList :=
  { name := "TESTAPP_DATA_CAMERA_CTRL", count := 1,
    names :=
      ["idCamCtrl"] }

/-- The definition `#define OSP_TAGS_TESTAPP_CAMERA_CTRL` of identifiers.h, line 263. -/
def OSP_TAGS_TESTAPP_CAMERA_CTRL : IdentifierList :=
  { name := "OSP_TAGS_TESTAPP_CAMERA_CTRL", count := 2,
    names :=
      ["tgCamCtrlMod", "tgCamCtrlReq"] }

/-- The definition `#define TESTAPP_DATA_SHADER_VISUALIZER` of identifiers.h, line 268. -/
def TESTAPP_DATA_SHADER_VISUALIZER : IdentifierList :=
  { name := "TESTAPP_DATA_SHADER_VISUALIZER", count := 1,
    names :=
      ["idDrawShVisual"] }

/-- The definition `#define TESTAPP_DATA_SHADER_PHONG` of identifiers.h, line 273. -/
def TESTAPP_DATA_SHADER_PHONG : IdentifierList :=
  { name := "TESTAPP_DATA_SHADER_PHONG", count := 1,
    names :=
      ["idDrawShPhong"] }

/-- The definition `#define TESTAPP_DATA_SHADER_FLAT` of identifiers.h, line 278. -/
def TESTAPP_DATA_SHADER_FLAT : IdentifierList :=
  { name := "TESTAPP_DATA_SHADER_FLAT", count := 1,
    names :=
      ["idDrawShFlat"] }

/-- The definition `#define TESTAPP_DATA_INDICATOR` of identifiers.h, line 283. -/
def TESTAPP_DATA_INDICATOR : IdentifierList :=
  { name := "TESTAPP_DATA_INDICATOR", count := 1,
    names :=
      ["idIndicator"] }

/-- The definition `#define TESTAPP_DATA_VEHICLE_CONTROL` of identifiers.h, line 288. -/
def TESTAPP_DATA_VEHICLE_CONTROL : IdentifierList :=
  { name := "TESTAPP_DATA_VEHICLE_CONTROL", count := 1,
    names :=
      ["idVhControls"] }

/-- The definition `#define OSP_TAGS_TESTAPP_VEHICLE_CONTROL` of identifiers.h, line 290. -/
def OSP_TAGS_TESTAPP_VEHICLE_CONTROL : IdentifierList :=
  { name := "OSP_TAGS_TESTAPP_VEHICLE_CONTROL", count := 2,
    names :=
      ["tgSelUsrCtrlMod", "tgSelUsrCtrlReq"] }

/-- Every `TESTAPP_DATA_*` and `OSP_TAGS_*` definition of identifiers.h, in the order of
the file; the two pairs of definitions for the material session appear twice. -/
def identifier_lists : List IdentifierList :=
  [TESTAPP_DATA_COMMON_SCENE, OSP_TAGS_TESTAPP_COMMON_SCENE, TESTAPP_DATA_MATERIAL,
   OSP_TAGS_TESTAPP_MATERIAL, TESTAPP_DATA_MATERIAL, OSP_TAGS_TESTAPP_MATERIAL,
   TESTAPP_DATA_PHYSICS, OSP_TAGS_TESTAPP_PHYSICS, TESTAPP_DATA_SHAPE_SPAWN,
   OSP_TAGS_TESTAPP_SHAPE_SPAWN, TESTAPP_DATA_PREFABS, OSP_TAGS_TESTAPP_PREFABS,
   TESTAPP_DATA_BOUNDS, OSP_TAGS_TESTAPP_BOUNDS, TESTAPP_DATA_PARTS, OSP_TAGS_TESTAPP_PARTS,
   TESTAPP_DATA_VEHICLE_SPAWN, OSP_TAGS_TESTAPP_VEHICLE_SPAWN,
   TESTAPP_DATA_VEHICLE_SPAWN_VB, OSP_TAGS_TESTAPP_VEHICLE_SPAWN_VB,
   TESTAPP_DATA_TEST_VEHICLES, TESTAPP_DATA_SIGNALS_FLOAT, OSP_TAGS_TESTAPP_SIGNALS_FLOAT,
   TESTAPP_DATA_MACH_ROCKET, OSP_TAGS_TESTAPP_MACH_ROCKET, OSP_TAGS_TESTAPP_MACH_RCSDRIVER,
   TESTAPP_DATA_NEWTON, OSP_TAGS_TESTAPP_NEWTON, TESTAPP_DATA_NEWTON_FORCES,
   TESTAPP_DATA_NEWTON_ACCEL, OSP_TAGS_TESTAPP_VEHICLE_SPAWN_NWT, TESTAPP_DATA_ROCKETS_NWT,
   TESTAPP_DATA_UNI_CORE, OSP_TAGS_TESTAPP_UNI_CORE, TESTAPP_DATA_UNI_SCENEFRAME,
   OSP_TAGS_TESTAPP_UNI_SCENEFRAME, TESTAPP_DATA_UNI_PLANETS, TESTAPP_DATA_WINDOW_APP,
   TESTAPP_DATA_MAGNUM, TESTAPP_DATA_COMMON_RENDERER, OSP_TAGS_TESTAPP_COMMON_RENDERER,
   TESTAPP_DATA_CAMERA_CTRL, OSP_TAGS_TESTAPP_CAMERA_CTRL, TESTAPP_DATA_SHADER_VISUALIZER,
   TESTAPP_DATA_SHADER_PHONG, TESTAPP_DATA_SHADER_FLAT, TESTAPP_DATA_INDICATOR,
   TESTAPP_DATA_VEHICLE_CONTROL, OSP_TAGS_TESTAPP_VEHICLE_CONTROL]

/-- Whether the definition is a tag list, named `OSP_TAGS_*`. -/
def IdentifierList.is_tags (l : IdentifierList) : Bool :=
  "OSP_TAGS_".data.isPrefixOf l.name.data

/-- The `OSP_TAGS_*` definitions of identifiers.h. -/
def tags_lists : List IdentifierList :=
  identifier_lists.filter IdentifierList.is_tags

/-- The seven role suffixes of the tag naming comment (identifiers.h, lines 36-44). -/
def role_suffixes : List String := ["Evt", "New", "Del", "Mod", "Req", "Prv", "Clr"]

/-- The role of an identifier: the role suffix it ends in, if any. -/
def tag_role (n : String) : Option String :=
  role_suffixes.find? (fun r => r.data.isSuffixOf n.data)

/-- The number of role suffixes an identifier ends in. -/
def role_count (n : String) : Nat :=
  (role_suffixes.filter (fun r => r.data.isSuffixOf n.data)).length

/-- The stem of a tag identifier `tg<stem><role>`: what stands between the leading
`tg` and the three letters of the role. -/
def tag_stem (n : String) : List Char :=
  (n.data.drop 2).take (n.data.length - 5)

/-- Whether an identifier has the form `tg<stem><role>`: it starts with `tg`, ends in
exactly one of the seven role suffixes and has a stem between the two. -/
def has_tag_form (n : String) : Bool :=
  "tg".data.isPrefixOf n.data && role_count n == 1 && 5 < n.data.length

/-- Whether an identifier is a tag of the form `tg<stem>Req`. -/
def is_req_tag (n : String) : Bool :=
  has_tag_form n && tag_role n == some "Req"

/-- The identifier `tg<stem>Mod` for the stem of `n`. -/
def mod_tag_of (n : String) : String :=
  String.mk ("tg".data ++ tag_stem n ++ "Mod".data)

end testapp

namespace osp

/-! ## Properties of the registry helpers -/

theorem top_reserve_length (dest : List TopDataId) :
    ∀ (topData : TopData) (current : Nat),
      (top_reserve topData current dest).2.2.length = dest.length := by
  induction dest with
  | nil => intro topData current; rfl
  | cons d dest ih =>
    intro topData current
    simp only [top_reserve]
    split
    · simp only [List.length_cons]
      rw [ih]
    · rfl

theorem IdRegistry.create_length (dest : List Nat) :
    ∀ (reg : IdRegistry), (IdRegistry.create reg dest).2.length = dest.length := by
  induction dest with
  | nil => intro reg; rfl
  | cons d dest ih =>
    intro reg
    simp only [IdRegistry.create, List.length_cons]
    rw [ih]

end osp

namespace osp

/-! ## `Session::acquire_data` -/

theorem free_slots_from_lt (topData : TopData) :
    ∀ (current x : Nat), x ∈ free_slots_from topData current → x < topData.length := by
  induction topData with
  | nil =>
    intro current x h
    simp [free_slots_from] at h
  | cons slot rest ih =>
    intro current x h
    cases current with
    | zero =>
      simp only [free_slots_from, List.mem_append, List.mem_map] at h
      rcases h with h | ⟨y, hy, rfl⟩
      · split at h
        · simp only [List.mem_singleton] at h
          subst h
          simp
        · simp at h
      · have := ih 0 y hy
        simp only [List.length_cons]
        omega
    | succ c =>
      simp only [free_slots_from, List.mem_map] at h
      obtain ⟨y, hy, rfl⟩ := h
      have := ih c y hy
      simp only [List.length_cons]
      omega

/-- What `free_slots_from` lists: exactly the slots at or after `current` that are
free. -/
theorem mem_free_slots_from (topData : TopData) :
    ∀ (current x : Nat),
      x ∈ free_slots_from topData current ↔ current ≤ x ∧ topData.get? x = some TopSlot.free := by
  induction topData with
  | nil =>
    intro current x
    simp [free_slots_from]
  | cons slot rest ih =>
    intro current x
    cases current with
    | zero =>
      simp only [free_slots_from, List.mem_append, List.mem_map, Nat.zero_le, true_and]
      cases x with
      | zero =>
        by_cases hs : slot = TopSlot.free
        · simp [hs]
        · simp [hs]
      | succ x =>
        have hx := ih 0 x
        simp only [Nat.zero_le, true_and] at hx
        by_cases hs : slot = TopSlot.free
        · simp [hs, hx]
        · simp [hs, hx]
    | succ c =>
      simp only [free_slots_from, List.mem_map]
      cases x with
      | zero => simp
      | succ x =>
        have hx := ih c x
        simp [hx]

/-- The list `free_slots_from` is in increasing order. -/
theorem free_slots_from_sorted (topData : TopData) :
    ∀ (current : Nat), (free_slots_from topData current).Pairwise (fun a b => a < b) := by
  induction topData with
  | nil =>
    intro current
    simp [free_slots_from]
  | cons slot rest ih =>
    intro current
    have hmap : ∀ c, ((free_slots_from rest c).map (fun i => i + 1)).Pairwise
        (fun a b => a < b) := by
      intro c
      rw [List.pairwise_map]
      exact (ih c).imp (fun h => Nat.succ_lt_succ h)
    cases current with
    | zero =>
      simp only [free_slots_from]
      split
      · simp only [List.singleton_append, List.pairwise_cons]
        refine ⟨?_, hmap 0⟩
        intro b hb
        simp only [List.mem_map] at hb
        obtain ⟨y, _, rfl⟩ := hb
        exact Nat.succ_pos y
      · simpa using hmap 0
    | succ c =>
      simp only [free_slots_from]
      exact hmap c

/-- The search of `top_find_empty` ends on the first free slot at or after
`current`, or on the size of the store when none is free. -/
theorem top_find_empty_eq (topData : TopData) :
    ∀ (current : Nat),
      top_find_empty topData current
        = ((free_slots_from topData current).head?).getD topData.length := by
  induction topData with
  | nil =>
    intro current
    simp [top_find_empty, free_slots_from]
  | cons slot rest ih =>
    intro current
    cases current with
    | zero =>
      simp only [top_find_empty, free_slots_from]
      split
      · simp
      · rw [ih 0]
        cases free_slots_from rest 0 <;> simp
    | succ c =>
      simp only [top_find_empty, free_slots_from]
      rw [ih c]
      cases free_slots_from rest c <;> simp

/-- Reserving the first free slot leaves the other free slots, from the next
position on. -/
theorem free_slots_from_set (topData : TopData) :
    ∀ (current f : Nat) (fs : List Nat), free_slots_from topData current = f :: fs →
      free_slots_from (topData.set f TopSlot.reserved) (f + 1) = fs := by
  induction topData with
  | nil =>
    intro current f fs h
    simp [free_slots_from] at h
  | cons slot rest ih =>
    intro current f fs h
    have hmap : ∀ c, (free_slots_from rest c).map (fun i => i + 1) = f :: fs →
        free_slots_from ((slot :: rest).set f TopSlot.reserved) (f + 1) = fs := by
      intro c hc
      cases hrest : free_slots_from rest c with
      | nil => rw [hrest] at hc; simp at hc
      | cons g gs =>
        rw [hrest] at hc
        simp only [List.map_cons, List.cons.injEq] at hc
        obtain ⟨hf, hfs⟩ := hc
        subst hf
        subst hfs
        simp only [List.set_cons_succ, free_slots_from]
        rw [ih c g gs hrest]
    cases current with
    | zero =>
      simp only [free_slots_from] at h
      split at h
      · simp only [List.singleton_append, List.cons.injEq] at h
        obtain ⟨hf, hfs⟩ := h
        subst hf
        subst hfs
        simp only [List.set_cons_zero, free_slots_from]
      · simp only [List.nil_append] at h
        exact hmap 0 h
    | succ c =>
      simp only [free_slots_from] at h
      exact hmap c h

/-- What `top_reserve` leaves in the destination range: the free slots from
`current` on, in increasing order, over as many elements as there are free
slots, and the elements after those as they were. -/
theorem top_reserve_eq (dest : List TopDataId) :
    ∀ (topData : TopData) (current : Nat),
      (top_reserve topData current dest).2.2
        = (free_slots_from topData current).take dest.length
            ++ dest.drop (free_slots_from topData current).length := by
  induction dest with
  | nil =>
    intro topData current
    simp [top_reserve]
  | cons d dest ih =>
    intro topData current
    simp only [top_reserve]
    rw [top_find_empty_eq]
    cases hfree : free_slots_from topData current with
    | nil => simp
    | cons f fs =>
      have hlt : f < topData.length :=
        free_slots_from_lt topData current f (by rw [hfree]; exact List.mem_cons_self _ _)
      simp only [List.head?_cons, Option.getD_some, hlt, if_true]
      rw [ih, free_slots_from_set topData current f fs hfree]
      simp

/-- With at least as many free slots as elements, `top_reserve` writes every
element of the destination range: the first free slots, in increasing order. -/
theorem top_reserve_of_room (dest : List TopDataId) (topData : TopData) (current : Nat)
    (h : dest.length ≤ (free_slots_from topData current).length) :
    (top_reserve topData current dest).2.2
      = (free_slots_from topData current).take dest.length := by
  rw [top_reserve_eq, List.drop_eq_nil_of_le h, List.append_nil]

/-- Claim C3, counterexample: on a session whose data list holds the id 7,
`acquire_data<1>` on a store whose slot 0 is free returns `[0]` and leaves the
data list `[0]`, which is not the previous contents followed by the new id. -/
theorem acquire_data_drops_previous_ids :
    session_holding_7.m_data = [7] ∧
    (Session.acquire_data 1 uninit_9 session_holding_7 store_with_room).1 = [0] ∧
    (Session.acquire_data 1 uninit_9 session_holding_7 store_with_room).2.1.m_data = [0] ∧
    (Session.acquire_data 1 uninit_9 session_holding_7 store_with_room).2.1.m_data ≠
      session_holding_7.m_data
        ++ (Session.acquire_data 1 uninit_9 session_holding_7 store_with_room).1 := by
  decide

/-- Claim C3, as amended: on a store with at least `N` free slots, after
`acquire_data<N>` the data list of the session is exactly the `N` newly reserved
ids, the first `N` free slots in increasing order, whatever it held before: the
previous contents are replaced. -/
theorem acquire_data_replaces_data (N : Nat) (uninit : Nat → TopDataId) (s : Session)
    (topData : TopData) (h : N ≤ (free_slots_from topData 0).length) :
    (Session.acquire_data N uninit s topData).2.1.m_data = (free_slots_from topData 0).take N ∧
    (Session.acquire_data N uninit s topData).2.1.m_data.length = N ∧
    (Session.acquire_data N uninit s topData).2.1.m_data
      = (Session.acquire_data N uninit s topData).1 := by
  have hlen : ((List.range N).map uninit).length = N := by simp
  have hout : (top_reserve topData 0 ((List.range N).map uninit)).2.2
      = (free_slots_from topData 0).take N := by
    rw [top_reserve_of_room _ _ _ (by rw [hlen]; exact h), hlen]
  refine ⟨hout, ?_, rfl⟩
  simp only [Session.acquire_data]
  rw [top_reserve_length, hlen]

/-- Witness of C3 as amended: on the store with the free slots 0 and 2, the data
list `[7]` becomes `[0, 2]` after `acquire_data<2>`. -/
theorem acquire_data_replaces_data_witness :
    free_slots_from store_with_room 0 = [0, 2] ∧
    (Session.acquire_data 2 uninit_9 session_holding_7 store_with_room).2.1.m_data = [0, 2] :=
  ⟨by decide,
   (acquire_data_replaces_data 2 uninit_9 session_holding_7 store_with_room (by decide)).1⟩

/-- Claim C9, counterexample: on a store of two slots, neither of them free,
`top_reserve` writes nothing and leaves the store as it is, and
`acquire_data<1>` returns the array with the indeterminate value it started
with, here 9, which is no slot of the store. -/
theorem acquire_data_on_exhausted_store :
    store_exhausted.length = 2 ∧
    free_slots_from store_exhausted 0 = [] ∧
    (Session.acquire_data 1 uninit_9 Session.new store_exhausted).1 = [uninit_9 0] ∧
    (Session.acquire_data 1 uninit_9 Session.new store_exhausted).1 = [9] ∧
    (Session.acquire_data 1 uninit_9 Session.new store_exhausted).2.2 = store_exhausted ∧
    ¬ (∀ id ∈ (Session.acquire_data 1 uninit_9 Session.new store_exhausted).1,
        (Session.acquire_data 1 uninit_9 Session.new store_exhausted).2.2.get? id
          = some TopSlot.reserved) := by
  decide

/-- Claim C9, as amended: `acquire_data<N>` returns an array of `N` entries; on a store
with at least `N` free slots they are the ids `top_reserve` wrote searching from
slot 0, the first `N` free slots in increasing order; after the call the
entries of the array are the last `N` entries of the data list, in the order
returned; the target list and the task list are unchanged. -/
theorem acquire_data_result (N : Nat) (uninit : Nat → TopDataId) (s : Session)
    (topData : TopData) :
    (Session.acquire_data N uninit s topData).1.length = N ∧
    (N ≤ (free_slots_from topData 0).length →
      (Session.acquire_data N uninit s topData).1 = (free_slots_from topData 0).take N) ∧
    (Session.acquire_data N uninit s topData).2.1.m_data.drop
        ((Session.acquire_data N uninit s topData).2.1.m_data.length - N)
        = (Session.acquire_data N uninit s topData).1 ∧
    (Session.acquire_data N uninit s topData).2.1.m_targets = s.m_targets ∧
    (Session.acquire_data N uninit s topData).2.1.m_tasks = s.m_tasks := by
  have hlen0 : ((List.range N).map uninit).length = N := by simp
  have hlen : (top_reserve topData 0 ((List.range N).map uninit)).2.2.length = N := by
    rw [top_reserve_length, hlen0]
  refine ⟨hlen, ?_, ?_, rfl, rfl⟩
  · intro h
    simp only [Session.acquire_data]
    rw [top_reserve_of_room _ _ _ (by rw [hlen0]; exact h), hlen0]
  · simp only [Session.acquire_data]
    rw [hlen, Nat.sub_self, List.drop_zero]

/-- Witness of C9 as amended: on the store with the free slots 0 and 2,
`acquire_data<2>` returns `[0, 2]`. -/
theorem acquire_data_result_witness :
    free_slots_from store_with_room 0 = [0, 2] ∧
    (Session.acquire_data 2 uninit_9 Session.new store_with_room).1 = [0, 2] ∧
    (Session.acquire_data 2 uninit_9 Session.new store_with_room).2.2
      = [TopSlot.reserved, TopSlot.value 5, TopSlot.reserved] :=
  ⟨by decide,
   (acquire_data_result 2 uninit_9 Session.new store_with_room).2.1 (by decide),
   by decide⟩

/-- The macro `OSP_DECLARE_CREATE_DATA_IDS` writes the data list in the same way: after
it the list has `count` entries, the range handed to `top_reserve`, whatever
length the list had before. -/
theorem declare_create_data_ids_length (count : Nat) (s : Session) (topData : TopData) :
    (declare_create_data_ids count s topData).2.1.m_data.length = count ∧
    (declare_create_data_ids count s topData).1
      = (declare_create_data_ids count s topData).2.1.m_data := by
  have hres : (vector_resize s.m_data count).length = count := by
    simp only [vector_resize, List.length_append, List.length_take, List.length_replicate]
    omega
  have hlen : (top_reserve topData 0 (vector_resize s.m_data count)).2.2.length = count := by
    rw [top_reserve_length, hres]
  refine ⟨hlen, ?_⟩
  simp only [declare_create_data_ids]
  exact List.take_of_length_le (by omega)

/-! ## `Session::task` -/

/-- Claim C10: `task()` grows the task list by exactly one; the new last entry is
the null id and is the element the returned reference designates; the earlier
entries keep their values and order; the data list, the target list and the
cleanup target are unchanged. -/
theorem task_appends_null (s : Session) :
    (Session.task s).2.m_tasks.length = s.m_tasks.length + 1 ∧
    (Session.task s).2.m_tasks.getLast? = some id_null ∧
    (Session.task s).1 + 1 = (Session.task s).2.m_tasks.length ∧
    (Session.task s).2.m_tasks.get? (Session.task s).1 = some id_null ∧
    (Session.task s).2.m_tasks.take s.m_tasks.length = s.m_tasks ∧
    (Session.task s).2.m_data = s.m_data ∧
    (Session.task s).2.m_targets = s.m_targets ∧
    (Session.task s).2.m_cleanupTgt = s.m_cleanupTgt := by
  refine ⟨?_, ?_, ?_, ?_, ?_, rfl, rfl, rfl⟩ <;> simp [Session.task]

/-! ## `Session::create_targets` and `Session::get_targets` -/

/-- Claim C4: after `create_targets<T>` the target list has exactly `count` entries,
every field of the struct returned is the entry of the list at the same
position, and `get_targets<T>` on the session as left by `create_targets`
passes its assertion and returns the same struct. -/
theorem create_then_get_targets (T : TgtStructInfo) (s : Session) (m_targetIds : IdRegistry) :
    (Session.create_targets T s m_targetIds).2.1.m_targets.length = T.count ∧
    (Session.create_targets T s m_targetIds).1.length = T.count ∧
    (∀ i : Nat, (Session.create_targets T s m_targetIds).1.get? i
        = (Session.create_targets T s m_targetIds).2.1.m_targets.get? i) ∧
    Session.get_targets T (Session.create_targets T s m_targetIds).2.1
        = some (Session.create_targets T s m_targetIds).1 := by
  have hres : (vector_resize s.m_targets T.count).length = T.count := by
    simp only [vector_resize, List.length_append, List.length_take, List.length_replicate]
    omega
  have hlen : (IdRegistry.create m_targetIds (vector_resize s.m_targets T.count)).2.length
      = T.count := by
    rw [IdRegistry.create_length, hres]
  have htake : (IdRegistry.create m_targetIds (vector_resize s.m_targets T.count)).2.take T.count
      = (IdRegistry.create m_targetIds (vector_resize s.m_targets T.count)).2 :=
    List.take_of_length_le (by omega)
  refine ⟨hlen, ?_, ?_, ?_⟩
  · simp only [Session.create_targets]; rw [htake]; exact hlen
  · intro i; simp only [Session.create_targets]; rw [htake]
  · simp only [Session.get_targets, Session.create_targets]
    rw [hlen]; simp

/-- A call other than `create_targets` leaves the target list and the recorded
type hash of the session as they are. -/
theorem SessionCall.apply_keeps_targets (c : SessionCall) (w w1 : SessionWorld)
    (hc : ∀ T, c ≠ SessionCall.create_targets T) (h : c.apply w = some w1) :
    w1.session.m_targets = w.session.m_targets ∧
    w1.session.m_targetStructHash = w.session.m_targetStructHash := by
  cases c with
  | acquire_data N uninit =>
    simp only [SessionCall.apply, Option.some.injEq] at h
    subst h
    exact ⟨rfl, rfl⟩
  | create_targets T => exact absurd rfl (hc T)
  | get_targets T =>
    simp only [SessionCall.apply] at h
    split at h
    · simp only [Option.some.injEq] at h
      subst h
      exact ⟨rfl, rfl⟩
    · exact absurd h (by simp)
  | task =>
    simp only [SessionCall.apply, Option.some.injEq] at h
    subst h
    exact ⟨rfl, rfl⟩

/-- A sequence of calls without `create_targets` leaves the target list and the
recorded type hash of the session as they are. -/
theorem run_calls_keeps_targets (calls : List SessionCall) :
    ∀ (w w1 : SessionWorld), (∀ T, SessionCall.create_targets T ∉ calls) →
      run_calls calls w = some w1 →
      w1.session.m_targets = w.session.m_targets ∧
      w1.session.m_targetStructHash = w.session.m_targetStructHash := by
  induction calls with
  | nil =>
    intro w w1 _ h
    simp only [run_calls, Option.some.injEq] at h
    subst h
    exact ⟨rfl, rfl⟩
  | cons c cs ih =>
    intro w w1 hno h
    simp only [run_calls] at h
    split at h
    · rename_i w2 hw2
      have hc : ∀ T, c ≠ SessionCall.create_targets T := by
        intro T hT
        exact hno T (by rw [hT]; exact List.mem_cons_self _ _)
      have hcs : ∀ T, SessionCall.create_targets T ∉ cs := by
        intro T hT
        exact hno T (List.mem_cons_of_mem _ hT)
      have h1 := SessionCall.apply_keeps_targets c w w2 hc hw2
      have h2 := ih w2 w1 hcs h
      exact ⟨h2.1.trans h1.1, h2.2.trans h1.2⟩
    · exact absurd h (by simp)

/-- Claim C5: `get_targets<U>` fails its assertion whenever the type hash of `U`
differs from the hash the session recorded or the field count of `U` differs
from the length of the target list; in particular it fails for every target
struct `U` (a struct has at least one field) on a session that was newly
constructed and on which `create_targets` was never called. -/
theorem get_targets_fails_on_mismatch :
    (∀ (U : TgtStructInfo) (s : Session),
      (s.m_targetStructHash ≠ U.hash_code ∨ U.count ≠ s.m_targets.length) →
      Session.get_targets U s = none) ∧
    (∀ (U : TgtStructInfo) (calls : List SessionCall) (topData : TopData)
      (m_targetIds : IdRegistry) (w : SessionWorld),
      0 < U.count →
      (∀ T, SessionCall.create_targets T ∉ calls) →
      run_calls calls ⟨Session.new, topData, m_targetIds⟩ = some w →
      Session.get_targets U w.session = none) := by
  have hfirst : ∀ (U : TgtStructInfo) (s : Session),
      (s.m_targetStructHash ≠ U.hash_code ∨ U.count ≠ s.m_targets.length) →
      Session.get_targets U s = none := by
    intro U s h
    simp only [Session.get_targets]
    rw [if_neg]
    rintro ⟨h1, h2⟩
    rcases h with h | h
    · exact h h1
    · exact h h2
  refine ⟨hfirst, ?_⟩
  intro U calls topData m_targetIds w hpos hno hrun
  have hkeep := run_calls_keeps_targets calls _ w hno hrun
  apply hfirst
  right
  rw [hkeep.1]
  simp only [Session.new, List.length_nil]
  omega

/-- Witness of C5: `get_targets<TgtScene>` fails on a session whose targets were
created with `TgtMagnum`, and on a new session after `acquire_data<2>`, on a
store with two free slots, and `task()`. -/
theorem get_targets_fails_on_mismatch_witness :
    Session.get_targets (TgtScene 11 "TgtScene")
      (Session.create_targets (TgtMagnum 12 "TgtMagnum") Session.new ⟨[]⟩).2.1 = none ∧
    (run_calls [SessionCall.acquire_data 2 uninit_9, SessionCall.task]
          ⟨Session.new, store_with_room, ⟨[]⟩⟩
        = some ⟨{ Session.new with m_data := [0, 2], m_tasks := [id_null] },
                [TopSlot.reserved, TopSlot.value 5, TopSlot.reserved], ⟨[]⟩⟩ ∧
      Session.get_targets (TgtScene 11 "TgtScene")
        { Session.new with m_data := [0, 2], m_tasks := [id_null] } = none) :=
  ⟨get_targets_fails_on_mismatch.1 (TgtScene 11 "TgtScene")
      (Session.create_targets (TgtMagnum 12 "TgtMagnum") Session.new ⟨[]⟩).2.1
      (Or.inl (by decide)),
   by decide,
   get_targets_fails_on_mismatch.2 (TgtScene 11 "TgtScene")
      [SessionCall.acquire_data 2 uninit_9, SessionCall.task] store_with_room ⟨[]⟩
      ⟨{ Session.new with m_data := [0, 2], m_tasks := [id_null] },
        [TopSlot.reserved, TopSlot.value 5, TopSlot.reserved], ⟨[]⟩⟩
      (by decide) (by simp) (by decide)⟩

end osp

namespace testapp

/-! ## The identifier lists -/

/-- Claim C6: in every identifier list definition of identifiers.h, `TESTAPP_DATA_*`
and `OSP_TAGS_*`, the leading number is the number of identifier names that
follow it. -/
theorem identifier_counts_match :
    ∀ l ∈ identifier_lists, l.count = l.names.length := by
  decide

/-- Witness of C6: the tag list of the common scene session announces 37 identifiers
and 37 names follow. -/
theorem identifier_counts_match_witness :
    OSP_TAGS_TESTAPP_COMMON_SCENE.count = 37 ∧
    OSP_TAGS_TESTAPP_COMMON_SCENE.names.length = 37 ∧
    OSP_TAGS_TESTAPP_COMMON_SCENE.count = OSP_TAGS_TESTAPP_COMMON_SCENE.names.length :=
  ⟨by decide, by decide,
   identifier_counts_match OSP_TAGS_TESTAPP_COMMON_SCENE (by decide)⟩

/-! ## Tag naming -/

/-- Claim C7, counterexample: `OSP_TAGS_TESTAPP_COMMON_SCENE` is a tag list that declares
`tgEntReq`, a tag of the form `tg<stem>Req`, and does not declare `tgEntMod`. -/
theorem tgEntReq_has_no_mod_tag :
    OSP_TAGS_TESTAPP_COMMON_SCENE ∈ tags_lists ∧
    "tgEntReq" ∈ OSP_TAGS_TESTAPP_COMMON_SCENE.names ∧
    is_req_tag "tgEntReq" = true ∧
    mod_tag_of "tgEntReq" = "tgEntMod" ∧
    "tgEntMod" ∉ OSP_TAGS_TESTAPP_COMMON_SCENE.names ∧
    ¬ (∀ l ∈ tags_lists, ∀ n ∈ l.names, is_req_tag n = true → mod_tag_of n ∈ l.names) := by
  decide

/-- Claim C7, as amended: for every tag `tg<stem>Req` other than `tgEntReq` that an
`OSP_TAGS_*` list declares, the same list declares `tg<stem>Mod`. -/
theorem req_tags_have_mod_tag :
    ∀ l ∈ tags_lists, ∀ n ∈ l.names, is_req_tag n = true → n ≠ "tgEntReq" →
      mod_tag_of n ∈ l.names := by
  decide

/-- Witness of C7 as amended: `tgPhysTransformReq` of the physics session and its
`tgPhysTransformMod`. -/
theorem req_tags_have_mod_tag_witness :
    mod_tag_of "tgPhysTransformReq" = "tgPhysTransformMod" ∧
    mod_tag_of "tgPhysTransformReq" ∈ OSP_TAGS_TESTAPP_PHYSICS.names :=
  ⟨by decide,
   req_tags_have_mod_tag OSP_TAGS_TESTAPP_PHYSICS (by decide) "tgPhysTransformReq"
     (by decide) (by decide) (by decide)⟩

/-- Claim C8, counterexample: `OSP_TAGS_TESTAPP_COMMON_SCENE` declares `tgHierModEnd`,
which ends in none of the seven role suffixes. -/
theorem tgHierModEnd_has_no_role :
    OSP_TAGS_TESTAPP_COMMON_SCENE ∈ tags_lists ∧
    "tgHierModEnd" ∈ OSP_TAGS_TESTAPP_COMMON_SCENE.names ∧
    tag_role "tgHierModEnd" = none ∧
    has_tag_form "tgHierModEnd" = false ∧
    ¬ (∀ l ∈ tags_lists, ∀ n ∈ l.names, has_tag_form n = true) := by
  decide

/-- Claim C8, as amended: every tag identifier other than `tgHierModEnd` that an
`OSP_TAGS_*` list declares has the form `tg<stem><role>`, where the role is exactly
one of `Evt`, `New`, `Del`, `Mod`, `Req`, `Prv`, `Clr`. -/
theorem tags_have_role_form :
    ∀ l ∈ tags_lists, ∀ n ∈ l.names, n ≠ "tgHierModEnd" →
      has_tag_form n = true ∧ (tag_role n).isSome = true ∧ role_count n = 1 := by
  decide

/-- Witness of C8 as amended: `tgHierMod`, declared next to `tgHierModEnd`, has the
role `Mod`. -/
theorem tags_have_role_form_witness :
    tag_role "tgHierMod" = some "Mod" ∧
    (has_tag_form "tgHierMod" = true ∧ (tag_role "tgHierMod").isSome = true ∧
      role_count "tgHierMod" = 1) :=
  ⟨by decide,
   tags_have_role_form OSP_TAGS_TESTAPP_COMMON_SCENE (by decide) "tgHierMod"
     (by decide) (by decide)⟩

end testapp

namespace osp

/-! ## The graph compiler -/

theorem mem_first_occurrences (l : List Nat) (a : Nat) : a ∈ first_occurrences l ↔ a ∈ l := by
  simp [first_occurrences]

theorem nodup_first_occurrences (l : List Nat) : (first_occurrences l).Nodup := by
  simp only [first_occurrences, List.nodup_reverse]
  exact List.nodup_dedup _

/-- Both ends of an edge are tasks of the group. -/
theorem SessionGroup.mem_tasks_of_edge (g : SessionGroup) (a b : TaskId)
    (h : g.m_edges.has_edge a b = true) : a ∈ g.tasks ∧ b ∈ g.tasks := by
  simp only [TaskEdges.has_edge, List.any_eq_true, Bool.and_eq_true, beq_iff_eq] at h
  obtain ⟨p, hp, hpa, q, hq, hqb, _⟩ := h
  simp only [SessionGroup.tasks, mem_first_occurrences, List.mem_append, List.mem_map]
  exact ⟨Or.inl (Or.inr ⟨p, hp, hpa⟩), Or.inr ⟨q, hq, hqb⟩⟩

/-- A relation whose edges all go up along a rank is acyclic. -/
theorem TaskEdges.acyclic_of_rank (e : TaskEdges) (rank : TaskId → Nat)
    (h : ∀ a b, e.has_edge a b = true → rank a < rank b) : e.Acyclic := by
  have hlt : ∀ a b, Relation.TransGen (fun x y => e.has_edge x y = true) a b →
      rank a < rank b := by
    intro a b hab
    induction hab with
    | single hxy => exact h _ _ hxy
    | tail _ hyz ih => exact lt_trans ih (h _ _ hyz)
  intro a ha
  exact lt_irrefl _ (hlt a a ha)

/-- Among finitely many tasks of an acyclic relation, one has no edge to it from
any of them: a task with the fewest ancestors among them. -/
theorem TaskEdges.exists_ready (e : TaskEdges) (h : e.Acyclic) (remaining : List TaskId)
    (hne : remaining ≠ []) : ∃ t ∈ remaining, e.is_ready remaining t = true := by
  classical
  let r : TaskId → TaskId → Prop := fun x y => e.has_edge x y = true
  let anc : TaskId → Finset TaskId :=
    fun a => remaining.toFinset.filter (fun x => Relation.TransGen r x a)
  have hS : remaining.toFinset.Nonempty := by
    cases remaining with
    | nil => exact absurd rfl hne
    | cons t rest => exact ⟨t, by simp⟩
  obtain ⟨m, hm, hmin⟩ :=
    Finset.exists_min_image remaining.toFinset (fun a => (anc a).card) hS
  refine ⟨m, List.mem_toFinset.mp hm, ?_⟩
  simp only [TaskEdges.is_ready, List.all_eq_true, Bool.not_eq_true']
  intro a ha
  by_contra hedge
  have hedge1 : r a m := by
    show e.has_edge a m = true
    cases hv : e.has_edge a m with
    | true => rfl
    | false => exact absurd hv hedge
  have hlt : (anc a).card < (anc m).card := by
    apply Finset.card_lt_card
    rw [Finset.ssubset_iff_of_subset]
    · refine ⟨a, ?_, ?_⟩
      · simp only [anc, Finset.mem_filter, List.mem_toFinset]
        exact ⟨ha, Relation.TransGen.single hedge1⟩
      · simp only [anc, Finset.mem_filter, List.mem_toFinset, not_and]
        intro _
        exact h a
    · intro x hx
      simp only [anc, Finset.mem_filter, List.mem_toFinset] at hx ⊢
      exact ⟨hx.1, Relation.TransGen.tail hx.2 hedge1⟩
  have hle := hmin a (List.mem_toFinset.mpr ha)
  simp only at hle
  omega

/-- The traversal on an acyclic relation, with one round of fuel per task: it
returns an order, the order is a rearrangement of the tasks given, and both
ends of an edge among them appear in it in the direction of the edge. -/
theorem topological_order_of_acyclic (e : TaskEdges) (h : e.Acyclic) :
    ∀ (fuel : Nat) (remaining : List TaskId), remaining.length ≤ fuel →
      ∃ order, topological_order e fuel remaining = CompileResult.ok order ∧
        order.Perm remaining ∧
        ∀ a b, a ∈ remaining → b ∈ remaining → e.has_edge a b = true →
          order.indexOf a < order.indexOf b := by
  intro fuel
  induction fuel with
  | zero =>
    intro remaining hlen
    cases remaining with
    | nil =>
      exact ⟨[], rfl, List.Perm.refl _, fun a b ha => absurd ha (List.not_mem_nil a)⟩
    | cons t rest => simp at hlen
  | succ fuel ih =>
    intro remaining hlen
    cases remaining with
    | nil =>
      exact ⟨[], rfl, List.Perm.refl _, fun a b ha => absurd ha (List.not_mem_nil a)⟩
    | cons t rest =>
      obtain ⟨m, hm, hmready⟩ := e.exists_ready h (t :: rest) (List.cons_ne_nil _ _)
      cases hfind : (t :: rest).find? (e.is_ready (t :: rest)) with
      | none =>
        rw [List.find?_eq_none] at hfind
        exact absurd hmready (hfind m hm)
      | some next =>
        have hnext_mem : next ∈ t :: rest := List.mem_of_find?_eq_some hfind
        have hnext_ready : e.is_ready (t :: rest) next = true := List.find?_some hfind
        have hlen1 : ((t :: rest).erase next).length ≤ fuel := by
          rw [List.length_erase_of_mem hnext_mem]
          simp only [List.length_cons] at hlen ⊢
          omega
        obtain ⟨order, horder, hperm, hprec⟩ := ih ((t :: rest).erase next) hlen1
        refine ⟨next :: order, ?_, ?_, ?_⟩
        · simp only [topological_order, hfind, horder]
        · exact (List.Perm.cons next hperm).trans (List.perm_cons_erase hnext_mem).symm
        · intro a b ha hb hab
          simp only [TaskEdges.is_ready, List.all_eq_true, Bool.not_eq_true'] at hnext_ready
          have hb_ne : b ≠ next := by
            intro hbn
            have := hnext_ready a ha
            rw [hbn] at hab
            rw [hab] at this
            exact absurd this (by decide)
          have hb1 : b ∈ (t :: rest).erase next := (List.mem_erase_of_ne hb_ne).mpr hb
          by_cases han : a = next
          · rw [han, List.indexOf_cons_self, List.indexOf_cons_ne _ (Ne.symm hb_ne)]
            omega
          · have ha1 : a ∈ (t :: rest).erase next := (List.mem_erase_of_ne han).mpr ha
            rw [List.indexOf_cons_ne _ (Ne.symm han), List.indexOf_cons_ne _ (Ne.symm hb_ne)]
            exact Nat.succ_lt_succ (hprec a b ha1 hb1 hab)

/-- The relation of the scenario is acyclic: every edge goes from a task to a
task with a larger id. -/
theorem scenario_group_acyclic : scenario_group.m_edges.Acyclic := by
  apply TaskEdges.acyclic_of_rank _ id
  intro a b hab
  simp [TaskEdges.has_edge, scenario_group] at hab
  rcases hab with ⟨rfl, rfl⟩ | ⟨rfl, rfl⟩ <;> decide

/-- Claim C1: compiling a session group whose task edges are acyclic succeeds, and
the order of the `ExecGraph` it yields lists every task of the group exactly
once and has, for every edge `a -> b`, both tasks with `a` before `b`. -/
theorem compile_acyclic (g : SessionGroup) (h : g.m_edges.Acyclic) :
    ∃ graph, compile g = CompileResult.ok graph ∧
      graph.m_order.Perm g.tasks ∧
      graph.m_order.Nodup ∧
      ∀ a b, g.m_edges.has_edge a b = true →
        a ∈ graph.m_order ∧ b ∈ graph.m_order ∧
        graph.m_order.indexOf a < graph.m_order.indexOf b := by
  obtain ⟨order, horder, hperm, hprec⟩ :=
    topological_order_of_acyclic g.m_edges h g.tasks.length g.tasks (le_refl _)
  refine ⟨{ m_order := order,
             m_predecessors :=
               order.map (fun t => (t, g.tasks.filter (fun a => g.m_edges.has_edge a t))),
             m_successors :=
               order.map (fun t => (t, g.tasks.filter (fun b => g.m_edges.has_edge t b))) },
    by simp only [compile, horder], hperm, ?_, ?_⟩
  · exact (List.Perm.nodup_iff hperm).mpr (nodup_first_occurrences _)
  · intro a b hab
    obtain ⟨ha, hb⟩ := g.mem_tasks_of_edge a b hab
    exact ⟨(List.Perm.mem_iff hperm).mpr ha, (List.Perm.mem_iff hperm).mpr hb,
      hprec a b ha hb hab⟩

/-- Witness of C1: the relation of the scenario of the spec is acyclic, and the
scenario compiles to the order create, update, read. -/
theorem compile_acyclic_witness :
    scenario_group.m_edges.Acyclic ∧
    compile scenario_group = CompileResult.ok
      { m_order := [0, 1, 2],
        m_predecessors := [(0, []), (1, [0]), (2, [1])],
        m_successors := [(0, [1]), (1, [2]), (2, [])] } ∧
    ∃ graph, compile scenario_group = CompileResult.ok graph ∧
      graph.m_order.Perm scenario_group.tasks ∧
      graph.m_order.Nodup ∧
      ∀ a b, scenario_group.m_edges.has_edge a b = true →
        a ∈ graph.m_order ∧ b ∈ graph.m_order ∧
        graph.m_order.indexOf a < graph.m_order.indexOf b :=
  ⟨scenario_group_acyclic, by decide, compile_acyclic scenario_group scenario_group_acyclic⟩

/-! ## Closing sessions -/

theorem IdRegistry.has_remove (reg : IdRegistry) (id t : Nat)
    (h : t = id ∨ reg.has t = false) : (reg.remove id).has t = false := by
  simp only [IdRegistry.has, IdRegistry.remove, List.getD_eq_getElem?_getD,
    List.getElem?_set] at h ⊢
  by_cases hid : id = t
  · subst hid
    by_cases hlt : id < reg.m_exists.length <;> simp [hlt]
  · rw [if_neg hid]
    rcases h with h | h
    · exact absurd h.symm hid
    · exact h

theorem IdRegistry.has_foldl_remove (ids : List Nat) :
    ∀ (reg : IdRegistry) (t : Nat), (t ∈ ids ∨ reg.has t = false) →
      (ids.foldl IdRegistry.remove reg).has t = false := by
  induction ids with
  | nil =>
    intro reg t h
    rcases h with h | h
    · exact absurd h (List.not_mem_nil t)
    · exact h
  | cons id ids ih =>
    intro reg t h
    simp only [List.foldl_cons]
    apply ih
    rcases h with h | h
    · rcases List.mem_cons.mp h with h1 | h1
      · exact Or.inr (IdRegistry.has_remove reg id t (Or.inl h1))
      · exact Or.inl h1
    · exact Or.inr (IdRegistry.has_remove reg id t (Or.inr h))

/-- Claim C2, counterexample: the sessions of the scenario own the tasks 0, 1 and 2;
after `top_close_session` on them with the compiled graph of the scenario, the
graph still orders the three tasks. -/
theorem closed_tasks_stay_in_graph :
    compile scenario_group = CompileResult.ok scenario_graph ∧
    (scenario_group.m_sessions.map Session.m_tasks).flatten = [0, 1, 2] ∧
    (top_close_session no_cleanup scenario_tasks scenario_graph [] scenario_group.m_sessions
      ).graph.m_order = [0, 1, 2] ∧
    ¬ (∀ s ∈ scenario_group.m_sessions, ∀ t ∈ s.m_tasks,
        t ∉ (top_close_session no_cleanup scenario_tasks scenario_graph []
              scenario_group.m_sessions).graph.m_order) := by
  decide

/-- Claim C2, as amended: `top_close_session` leaves the compiled `ExecGraph` passed
to it as it was, and after the call none of the tasks owned by the sessions
exists in the task id pool of `rTasks`. -/
theorem top_close_session_releases_tasks (run_cleanup : List TargetId → TopData → TopData)
    (rTasks : Tasks) (graph : ExecGraph) (topData : TopData) (sessions : List Session) :
    (top_close_session run_cleanup rTasks graph topData sessions).graph = graph ∧
    ∀ s ∈ sessions, ∀ t ∈ s.m_tasks,
      (top_close_session run_cleanup rTasks graph topData sessions).rTasks.m_taskIds.has t
        = false := by
  refine ⟨rfl, ?_⟩
  intro s hs t ht
  simp only [top_close_session]
  apply IdRegistry.has_foldl_remove
  left
  simp only [List.mem_flatten, List.mem_map]
  exact ⟨s.m_tasks, ⟨s, hs, rfl⟩, ht⟩

/-- Witness of C2 as amended: closing the session of the scenario keeps the graph
and releases task 1. -/
theorem top_close_session_releases_tasks_witness :
    scenario_tasks.m_taskIds.has 1 = true ∧
    (top_close_session no_cleanup scenario_tasks scenario_graph [] scenario_group.m_sessions
      ).rTasks.m_taskIds.has 1 = false :=
  ⟨by decide,
   (top_close_session_releases_tasks no_cleanup scenario_tasks scenario_graph []
      scenario_group.m_sessions).2
     { Session.new with m_tasks := [0, 1, 2] } (by decide) 1 (by decide)⟩

/-! ## The cleanup target of a session -/

/-- One call of a member function leaves the cleanup target of the session as it is. -/
theorem SessionCall.apply_keeps_cleanupTgt (c : SessionCall) (w w1 : SessionWorld)
    (h : c.apply w = some w1) : w1.session.m_cleanupTgt = w.session.m_cleanupTgt := by
  cases c with
  | acquire_data N uninit =>
    simp only [SessionCall.apply, Option.some.injEq] at h
    subst h
    rfl
  | create_targets T =>
    simp only [SessionCall.apply, Option.some.injEq] at h
    subst h
    rfl
  | get_targets T =>
    simp only [SessionCall.apply] at h
    split at h
    · simp only [Option.some.injEq] at h
      subst h
      rfl
    · exact absurd h (by simp)
  | task =>
    simp only [SessionCall.apply, Option.some.injEq] at h
    subst h
    rfl

/-- A sequence of calls leaves the cleanup target of the session as it is. -/
theorem run_calls_keeps_cleanupTgt (calls : List SessionCall) :
    ∀ (w w1 : SessionWorld), run_calls calls w = some w1 →
      w1.session.m_cleanupTgt = w.session.m_cleanupTgt := by
  induction calls with
  | nil =>
    intro w w1 h
    simp only [run_calls, Option.some.injEq] at h
    subst h
    rfl
  | cons c cs ih =>
    intro w w1 h
    simp only [run_calls] at h
    split at h
    · rename_i w2 hw2
      exact (ih w2 w1 h).trans (SessionCall.apply_keeps_cleanupTgt c w w2 hw2)
    · exact absurd h (by simp)

/-- Claim C11: a newly constructed `Session` has empty data, target and task lists
and a null cleanup target; `acquire_data`, `create_targets` and `task()` return a
session with the cleanup target they were given, and `get_targets`, a const
member, returns no session at all; so after every sequence of these calls on a
new session the cleanup target is still null, whatever target structs
`create_targets` was called with. -/
theorem cleanup_target_stays_null :
    (Session.new.m_data = [] ∧ Session.new.m_targets = [] ∧ Session.new.m_tasks = [] ∧
      Session.new.m_cleanupTgt = id_null) ∧
    (∀ (N : Nat) (uninit : Nat → TopDataId) (s : Session) (topData : TopData),
      (Session.acquire_data N uninit s topData).2.1.m_cleanupTgt = s.m_cleanupTgt) ∧
    (∀ (T : TgtStructInfo) (s : Session) (m_targetIds : IdRegistry),
      (Session.create_targets T s m_targetIds).2.1.m_cleanupTgt = s.m_cleanupTgt) ∧
    (∀ s : Session, (Session.task s).2.m_cleanupTgt = s.m_cleanupTgt) ∧
    (∀ (c : SessionCall) (w w1 : SessionWorld), c.apply w = some w1 →
      w1.session.m_cleanupTgt = w.session.m_cleanupTgt) ∧
    (∀ (calls : List SessionCall) (topData : TopData) (m_targetIds : IdRegistry)
      (w : SessionWorld),
      run_calls calls ⟨Session.new, topData, m_targetIds⟩ = some w →
      w.session.m_cleanupTgt = id_null) := by
  refine ⟨⟨rfl, rfl, rfl, rfl⟩, fun _ _ _ _ => rfl, fun _ _ _ => rfl, fun _ => rfl,
    SessionCall.apply_keeps_cleanupTgt, ?_⟩
  intro calls topData m_targetIds w h
  exact run_calls_keeps_cleanupTgt calls _ w h

/-- Witness of C11: `create_targets<TgtScene>` on a new session returns a struct whose
first field, `cleanup`, is the target 0, and after the whole example sequence,
which creates targets with `TgtScene` and with `TgtMagnum`, the session holds the
target 4 and its cleanup target is still null. -/
theorem cleanup_target_stays_null_witness :
    TgtScene_fields.head? = some "cleanup" ∧
    TgtMagnum_fields.head? = some "cleanup" ∧
    (Session.create_targets (TgtScene 11 "TgtScene") Session.new ⟨[]⟩).1 = [0, 1, 2, 3] ∧
    run_calls cleanup_example_calls ⟨Session.new, store_with_room, ⟨[]⟩⟩
      = some cleanup_example_world ∧
    cleanup_example_world.session.m_targets = [4] ∧
    cleanup_example_world.session.m_cleanupTgt = id_null :=
  ⟨by decide, by decide, by decide, by decide, by decide,
   cleanup_target_stays_null.2.2.2.2.2 cleanup_example_calls store_with_room ⟨[]⟩
     cleanup_example_world
     (by decide)⟩

end osp
